import Mathlib

/-!
Verification of the review ingestion / analysis pipeline
(`data_ingester.py`, `review_analyzer.py`).

The pipeline manipulates dynamically-typed JSON-like values; we embed them
as the inductive `Json`.  Python strings are Lean `String`s, Python ints
are `Int`, numeric results of the rating parsers are rationals `ℚ`
(Python uses floats; all concrete values exercised here are exactly
representable).  Functions that the source wraps in `try`/`except` and
that can only fail in ways outside this model (e.g. the external pandas
and TextBlob collaborators) are modelled as noted in their doc comments.
-/

/-- A JSON-like dynamic value: the shape of review data flowing through
the pipeline (`None`, booleans, integers, strings, lists, dicts). -/
inductive Json where
  | null
  | bool (b : Bool)
  | num (n : Int)
  | str (s : String)
  | arr (xs : List Json)
  | obj (kvs : List (String × Json))

def commaSep (parts : List String) : String :=
  String.intercalate ", " parts

/-- Python `repr()` restricted to the values of `Json`.  String escaping
inside containers is elided (the strings handled by the pipeline contain
no quotes needing escapes). -/
def pyRepr : Json → String
  | .null => "None"
  | .bool true => "True"
  | .bool false => "False"
  | .num n => toString n
  | .str s => "\x27" ++ s ++ "\x27"
  | .arr xs => "[" ++ commaSep (xs.attach.map (fun x => pyRepr x.1)) ++ "]"
  | .obj kvs =>
      "\x7b" ++ commaSep (kvs.attach.map (fun kv => "\x27" ++ kv.1.1 ++ "\x27: " ++ pyRepr kv.1.2)) ++ "\x7d"
decreasing_by
  all_goals simp_wf
  · have := List.sizeOf_lt_of_mem x.2
    omega
  · have h1 := List.sizeOf_lt_of_mem kv.2
    have h2 : sizeOf kv.1.2 < sizeOf kv.1 := by
      obtain ⟨a, b⟩ := kv.1
      simp
    omega

/-- Python `str()` of a value. -/
def pyStr : Json → String
  | .str s => s
  | j => pyRepr j

/-- Python truthiness: `not x` is true exactly for these values. -/
def pyFalsy : Json → Bool
  | .null => true
  | .bool b => !b
  | .num n => n == 0
  | .str s => s == ""
  | .arr xs => xs.isEmpty
  | .obj kvs => kvs.isEmpty

/-- `ReviewAnalyzer.safe_string_conversion`: `None` becomes `""`, strings
pass through, everything else goes through `str()`. -/
def safe_string_conversion : Json → String
  | .null => ""
  | j => pyStr j

/-- Python `dict.get(k)` on the association list of an object
(keys are unique in every dict the code builds). -/
def dictGet (kvs : List (String × Json)) (k : String) : Option Json :=
  (kvs.find? (fun kv => kv.1 == k)).map (fun kv => kv.2)

/-- `d.get(k, default)`. -/
def dictGetD (kvs : List (String × Json)) (k : String) (dflt : Json) : Json :=
  match dictGet kvs k with
  | some v => v
  | none => dflt

/-- Whitespace characters recognised by Python `str.strip()` / `\s`
(ASCII subset). -/
def isPyWs (c : Char) : Bool :=
  c == ' ' || c == '\t' || c == '\n' || c == '\x0d' || c == '\x0b' || c == '\x0c'

/-- Python `str.strip()` on a character list. -/
def pyStrip (cs : List Char) : List Char :=
  ((cs.dropWhile isPyWs).reverse.dropWhile isPyWs).reverse

/-- Python `str.lower()` (ASCII model). -/
def lowerChars (cs : List Char) : List Char :=
  cs.map Char.toLower

/-- Python `str.capitalize()`: first character upper-cased, the rest
lower-cased (ASCII model). -/
def pyCapitalize : List Char → List Char
  | [] => []
  | c :: rest => c.toUpper :: rest.map Char.toLower

def pyTitleAux : Bool → List Char → List Char
  | _, [] => []
  | prevAlpha, c :: rest =>
      (if c.isAlpha then (if prevAlpha then c.toLower else c.toUpper) else c) ::
        pyTitleAux c.isAlpha rest

/-- Python `str.title()`: upper-case each letter that follows a
non-letter, lower-case the other letters. -/
def pyTitle (cs : List Char) : List Char :=
  pyTitleAux false cs

/-- `re.split` on a class of single-character delimiters; also Python
`str.split(c)` when given one delimiter. -/
def splitOnDelims (delims : List Char) : List Char → List (List Char)
  | [] => [[]]
  | c :: rest =>
      if c ∈ delims then [] :: splitOnDelims delims rest
      else
        match splitOnDelims delims rest with
        | [] => [[c]]
        | g :: gs => (c :: g) :: gs

/-- Python substring containment `needle in hay`. -/
def containsSub (hay needle : List Char) : Bool :=
  match hay with
  | [] => needle.isEmpty
  | _ :: rest => needle.isPrefixOf hay || containsSub rest needle

/-- Python `str.count(c)` for a single character. -/
def countChar (c : Char) (cs : List Char) : Nat :=
  cs.countP (fun x => x == c)

/-- Numeric value of a digit string. -/
def natOfDigits (ds : List Char) : Nat :=
  ds.foldl (fun n c => 10 * n + (c.toNat - '0'.toNat)) 0

/-- Python `f'R{index:05d}'`. -/
def fmtReviewId (i : Nat) : String :=
  let s := toString i
  "R" ++ String.mk (List.replicate (5 - s.length) '0') ++ s

/-- Word count of Python `len(s.split())`: number of maximal non-space runs. -/
def wordCountAux : Bool → List Char → Nat
  | _, [] => 0
  | inWord, c :: rest =>
      if isPyWs c then wordCountAux false rest
      else (if inWord then 0 else 1) + wordCountAux true rest

def pyWordCount (s : String) : Nat :=
  wordCountAux false s.data

/-- Exponent suffix of a Python float literal (after `e`/`E`). -/
def parseExp (cs : List Char) : Option Int :=
  match cs with
  | '+' :: ds => if ds ≠ [] ∧ ds.all Char.isDigit then some (natOfDigits ds) else none
  | '-' :: ds => if ds ≠ [] ∧ ds.all Char.isDigit then some (-(natOfDigits ds : Int)) else none
  | ds => if ds ≠ [] ∧ ds.all Char.isDigit then some (natOfDigits ds) else none

def applyExp (q : ℚ) (e : Int) : ℚ :=
  if 0 ≤ e then q * (10 : ℚ) ^ e.toNat else q / (10 : ℚ) ^ (-e).toNat

/-- Body of a Python `float()` literal after the optional sign:
`digits [. digits] [exp]` or `. digits [exp]`. -/
def pyFloatCore (cs : List Char) : Option ℚ :=
  let ip := cs.takeWhile Char.isDigit
  let rest := cs.drop ip.length
  match rest with
  | [] => if ip = [] then none else some ((natOfDigits ip : ℚ))
  | '.' :: rest2 =>
      let fp := rest2.takeWhile Char.isDigit
      let rest3 := rest2.drop fp.length
      if ip = [] ∧ fp = [] then none
      else
        let base : ℚ := (natOfDigits ip : ℚ) + (natOfDigits fp : ℚ) / (10 : ℚ) ^ fp.length
        match rest3 with
        | [] => some base
        | 'e' :: tail => (parseExp tail).map (applyExp base)
        | 'E' :: tail => (parseExp tail).map (applyExp base)
        | _ => none
  | 'e' :: tail => if ip = [] then none else (parseExp tail).map (applyExp ((natOfDigits ip : ℚ)))
  | 'E' :: tail => if ip = [] then none else (parseExp tail).map (applyExp ((natOfDigits ip : ℚ)))
  | _ => none

/-- Python `float(s)`: `none` models a `ValueError`.  The non-finite
literals `inf`/`nan` and digit-group underscores are outside this model;
no value exercised by the pipeline uses them. -/
def pyFloat (s : String) : Option ℚ :=
  match pyStrip s.data with
  | '+' :: rest => pyFloatCore rest
  | '-' :: rest => (pyFloatCore rest).map Neg.neg
  | rest => pyFloatCore rest

/-!  ## Rating parsers  -/

/-- `re.search(r'\((\d+)', s)` of `ReviewAnalyzer.extract_rating`: value
of the first digit run directly following a `(`. -/
def firstParenNum : List Char → Option Nat
  | [] => none
  | c :: rest =>
      if c = '(' then
        let ds := rest.takeWhile Char.isDigit
        if ds = [] then firstParenNum rest else some (natOfDigits ds)
      else firstParenNum rest

/-- Attempt of `re.search(r'\((\d+)\s*stars?\)', s)` at one position
(`cs` is the text following the `(`). -/
def matchParenStars (cs : List Char) : Option Nat :=
  let ds := cs.takeWhile Char.isDigit
  if ds = [] then none
  else
    match (cs.drop ds.length).dropWhile isPyWs with
    | 's' :: 't' :: 'a' :: 'r' :: tail =>
        match tail with
        | 's' :: ')' :: _ => some (natOfDigits ds)
        | ')' :: _ => some (natOfDigits ds)
        | _ => none
    | _ => none

/-- `re.search(r'\((\d+)\s*stars?\)', s)` of
`DataIngester.extract_rating_from_text`: first match wins. -/
def parenStarsNum : List Char → Option Nat
  | [] => none
  | c :: rest =>
      if c = '(' then
        match matchParenStars rest with
        | some n => some n
        | none => parenStarsNum rest
      else parenStarsNum rest

/-- Attempt of `re.search(r'(\d+(?:\.\d+)?)/?(\d+)?', s)` at the first
digit (`cs` starts with a digit): numerator and optional denominator. -/
def numPatternAt (cs : List Char) : ℚ × Option ℚ :=
  let ds := cs.takeWhile Char.isDigit
  let rest := cs.drop ds.length
  let fracRest : List Char × List Char :=
    match rest with
    | '.' :: more =>
        let fs := more.takeWhile Char.isDigit
        if fs = [] then ([], rest) else (fs, more.drop fs.length)
    | _ => ([], rest)
  let numerator : ℚ :=
    (natOfDigits ds : ℚ) + (natOfDigits fracRest.1 : ℚ) / (10 : ℚ) ^ fracRest.1.length
  let den : Option ℚ :=
    match fracRest.2 with
    | '/' :: more =>
        let es := more.takeWhile Char.isDigit
        if es = [] then none else some ((natOfDigits es : ℚ))
    | _ => none
  (numerator, den)

/-- `re.search(r'(\d+(?:\.\d+)?)/?(\d+)?', s)`: the match starts at the
first digit of the string. -/
def searchNum : List Char → Option (ℚ × Option ℚ)
  | [] => none
  | c :: rest => if c.isDigit then some (numPatternAt (c :: rest)) else searchNum rest

/-- `DataIngester.extract_rating_from_text`.  `Except.error` models an
uncaught Python exception (this function has no `try` block): a zero
denominator raises `ZeroDivisionError`; a non-empty container input
trips the ambiguous `pd.isna` truth test, outside the parser's
string|number|null contract. -/
def extract_rating_from_text (rating_text : Json) : Except String ℚ :=
  if pyFalsy rating_text then .ok 3
  else
    match rating_text with
    | .arr _ => .error "truth value of pd.isna on a list is ambiguous"
    | .obj _ => .error "truth value of pd.isna on a container is ambiguous"
    | _ =>
      let s := lowerChars (pyStr rating_text).data
      match parenStarsNum s with
      | some n => .ok ((n : ℚ))
      | none =>
        let starCount := countChar '★' s
        if starCount > 0 then .ok ((starCount : ℚ))
        else
          let asteriskCount := countChar '*' s
          if asteriskCount > 0 then .ok ((asteriskCount : ℚ))
          else
            match searchNum s with
            | some (numerator, some denominator) =>
                if denominator = 0 then .error "float division by zero"
                else .ok ((numerator / denominator) * 5)
            | some (numerator, none) => .ok (min numerator 5)
            | none => .ok 3

/-- `ReviewAnalyzer.extract_rating`: total, every fault is caught and
mapped to the default 3. -/
def extract_rating (rating_value : Json) : ℚ :=
  let s := (safe_string_conversion rating_value).data
  match firstParenNum s with
  | some n => (n : ℚ)
  | none =>
    let starCount := countChar '★' s
    if starCount > 0 then (starCount : ℚ)
    else
      match pyFloat (String.mk s) with
      | some q => q
      | none => 3

/-!  ## Record normalizer and ingestion (`data_ingester.py`)  -/

/-- The field list of the dict built by the mapping branch of
`DataIngester.normalize_review`. -/
def normFields (kvs : List (String × Json)) (index : Nat) : List (String × Json) :=
  [("review_id", .str (pyStr (dictGetD kvs "review_id" (dictGetD kvs "id" (.str (fmtReviewId index)))))),
   ("date", .str (pyStr (dictGetD kvs "date" (dictGetD kvs "timestamp" (.str ""))))),
   ("rating_text", .str (pyStr (dictGetD kvs "rating" (dictGetD kvs "stars" (dictGetD kvs "score" (.str "")))))),
   ("text", .str (pyStr (dictGetD kvs "text" (dictGetD kvs "review" (dictGetD kvs "content" (.str "")))))),
   ("raw_data", .obj kvs)]

/-- `DataIngester.normalize_review`.  The Python body sits in a
`try`/`except`; none of its operations can fail on `Json` values, so the
placeholder branch of the source is unreachable in this model and the
result is the dict built by the matching branch. -/
def normalize_review (raw_data : Json) (index : Nat) : Json :=
  match raw_data with
  | .obj kvs => .obj (normFields kvs index)
  | .str s =>
      .obj [("review_id", .str (fmtReviewId index)),
            ("date", .str ""),
            ("rating_text", .str ""),
            ("text", .str s),
            ("raw_data", raw_data)]
  | _ =>
      .obj [("review_id", .str (fmtReviewId index)),
            ("date", .str ""),
            ("rating_text", .str ""),
            ("text", .str (pyStr raw_data)),
            ("raw_data", raw_data)]

/-- `DataIngester.ingest_json` after `safe_json_load`: the argument is
`none` when the file content is not valid JSON (the load error path). -/
def ingest_json (data : Option Json) : List Json :=
  match data with
  | none => []
  | some d =>
      if pyFalsy d then []
      else
        match d with
        | .arr xs => xs.enum.map (fun p => normalize_review p.2 p.1)
        | .obj kvs =>
            match dictGet kvs "reviews" with
            | some (.arr rs) => rs.enum.map (fun p => normalize_review p.2 p.1)
            | _ => [normalize_review (.obj kvs) 0]
        | _ => []

/-- The `for i, line in enumerate(lines)` loop of
`DataIngester.ingest_text`: `i` counts every line, emitted or not. -/
def ingestTextLoop (i : Nat) : List (List Char) → List Json
  | [] => []
  | line :: rest =>
      if pyStrip line = [] then ingestTextLoop (i + 1) rest
      else normalize_review (.str (String.mk (pyStrip line))) i :: ingestTextLoop (i + 1) rest

/-- `DataIngester.ingest_text` on decoded file content. -/
def ingest_text (content : String) : List Json :=
  ingestTextLoop 0 (splitOnDelims ['\n'] content.data)

/-- An uploaded file as seen after decoding: the JSON variant carries the
result of `safe_json_load` (`none` = malformed JSON).  The CSV branch of
`ingest_file` delegates to the external pandas reader and is outside
this model. -/
inductive UploadedFile where
  | jsonFile (data : Option Json)
  | textFile (content : String)

/-- `DataIngester.ingest_file` restricted to the JSON and text formats. -/
def ingest_file : UploadedFile → List Json
  | .jsonFile data => ingest_json data
  | .textFile content => ingest_text content

/-!  ## Text analytics (`review_analyzer.py`)  -/

def problem_keywords : List String :=
  ["frustrating", "slow", "late", "missing", "broken",
   "confusing", "difficult", "bad", "poor", "terrible",
   "awful", "problem", "issue", "error", "bug", "crash",
   "not working", "doesn\x27t work", "failed", "disappointing",
   "horrible", "useless", "waste", "never", "again"]

def topic_keywords : List String :=
  ["app", "delivery", "food", "order", "payment",
   "search", "discount", "price", "quality", "service",
   "support", "interface", "navigation", "checkout",
   "shipping", "rider", "driver", "product", "website",
   "mobile", "customer", "experience", "package", "item"]

def common_phrases : List String :=
  ["discount program", "search functionality",
   "delivery time", "customer support",
   "user interface", "checkout process",
   "food quality", "order accuracy",
   "mobile app", "website design",
   "payment process", "shipping speed"]

/-- The literal part of each suggestion regex
`r"<literal>([\w\s]+)"` of `ReviewAnalyzer.suggestion_patterns`. -/
def suggestionLiterals : List String :=
  ["please ", "they should ", "you should ", "we should ",
   "add ", "implement ", "improve ", "make ", "fix ",
   "i suggest ", "it would be great if ", "can you ", "could you "]

/-- `\w` of the suggestion patterns (ASCII model). -/
def isWordChar (c : Char) : Bool :=
  c.isAlphanum || c == '_'

/-- `re.finditer` for one pattern `literal([\w\s]+)`: captured groups in
scan order, non-overlapping.  The fuel argument bounds the scan by the
text length and makes the recursion structural. -/
def findCaptures (lit : List Char) : Nat → List Char → List (List Char)
  | 0, _ => []
  | _, [] => []
  | fuel + 1, cs =>
      match cs with
      | [] => []
      | _ :: rest =>
          if lit.isPrefixOf cs then
            let after := cs.drop lit.length
            let cap := after.takeWhile (fun c => isWordChar c || isPyWs c)
            if cap = [] then findCaptures lit fuel rest
            else cap :: findCaptures lit fuel (after.drop cap.length)
          else findCaptures lit fuel rest

/-- First-occurrence deduplication; mirrors the
`if x not in acc: acc.append(x)` idiom.  Also stands in for Python
`list(set(...))`, whose iteration order is not deterministic: only the
membership of that result is modelled faithfully. -/
def dedupKeepFirst (acc : List String) : List String → List String
  | [] => acc
  | x :: xs => if x ∈ acc then dedupKeepFirst acc xs else dedupKeepFirst (acc ++ [x]) xs

/-- `ReviewAnalyzer.extract_suggestions`. -/
def extract_suggestions (text : String) : List String :=
  let clean := lowerChars (safe_string_conversion (.str text)).data
  if pyStrip clean = [] then []
  else
    let collected :=
      (suggestionLiterals.map (fun lit =>
        (findCaptures lit.data (clean.length + 1) clean).filterMap (fun cap =>
          let sug := pyStrip cap
          if 3 < sug.length then some (String.mk (pyCapitalize sug)) else none))).flatten
    dedupKeepFirst [] collected

/-- One sentence of `ReviewAnalyzer.extract_problems`: the capitalized
sentence when it is non-blank and contains a problem keyword (the inner
`break` makes at most one capture per sentence). -/
def capturedProblem (sentence : List Char) : Option String :=
  let s := pyStrip sentence
  if s = [] then none
  else if problem_keywords.any (fun k => containsSub s k.data) then
    some (String.mk (pyCapitalize s))
  else none

/-- The sentence loop of `extract_problems` with its accumulated
`problems` list. -/
def problemsLoop (acc : List String) : List (List Char) → List String
  | [] => acc
  | sentence :: rest =>
      match capturedProblem sentence with
      | none => problemsLoop acc rest
      | some p => if p ∈ acc then problemsLoop acc rest else problemsLoop (acc ++ [p]) rest

/-- `ReviewAnalyzer.extract_problems`. -/
def extract_problems (text : String) : List String :=
  let clean := lowerChars (safe_string_conversion (.str text)).data
  if pyStrip clean = [] then []
  else (problemsLoop [] (splitOnDelims ['.', '!', '?'] clean)).take 5

def charListLe : List Char → List Char → Bool
  | [], _ => true
  | _ :: _, [] => false
  | a :: as, b :: bs =>
      if a.val < b.val then true else if b.val < a.val then false else charListLe as bs

/-- Lexicographic string order by code point, as used by Python `sorted`. -/
def strLe (a b : String) : Bool :=
  charListLe a.data b.data

def insertStr (x : String) : List String → List String
  | [] => [x]
  | y :: ys => if strLe x y then x :: y :: ys else y :: insertStr x ys

/-- `sorted(...)` on a list of distinct strings (insertion sort). -/
def sortStr (l : List String) : List String :=
  l.foldr insertStr []

/-- `ReviewAnalyzer.extract_topics`: keyword and phrase hits collected
into a set, returned sorted.  The set is modelled by first-occurrence
deduplication before sorting, which yields the same sorted list. -/
def extract_topics (text : String) : List String :=
  let clean := lowerChars (safe_string_conversion (.str text)).data
  if pyStrip clean = [] then []
  else
    let singles := (topic_keywords.filter (fun k => containsSub clean k.data)).map
      (fun k => String.mk (pyCapitalize k.data))
    let phrases := (common_phrases.filter (fun p => containsSub clean p.data)).map
      (fun p => String.mk (pyTitle p.data))
    sortStr (dedupKeepFirst [] (singles ++ phrases))

/-- `ReviewAnalyzer.analyze_sentiment`.  The TextBlob polarity scorer is
the external collaborator of the spec; it is passed in as the function
`polarity` (total, so the `except` fallback of the source is
unreachable in this model). -/
def analyze_sentiment (polarity : String → ℚ) (text : String) : String :=
  let clean := safe_string_conversion (.str text)
  if pyStrip clean.data = [] then "neutral"
  else
    let p := polarity clean
    if p > 1 / 5 then "positive"
    else if p < -(1 / 5) then "negative"
    else "neutral"

/-- The insight dict produced by `ReviewAnalyzer.analyze_review_text`. -/
structure Insights where
  sentiment : String
  topics : List String
  problems : List String
  suggestions : List String
  numeric_rating : ℚ
  character_count : Nat
  word_count : Nat
  analysis_success : Bool
deriving DecidableEq, Repr

/-- `ReviewAnalyzer.get_default_insights`. -/
def get_default_insights (text : String) : Insights :=
  { sentiment := "neutral"
    topics := []
    problems := []
    suggestions := []
    numeric_rating := 3
    character_count := (safe_string_conversion (.str text)).length
    word_count := pyWordCount (safe_string_conversion (.str text))
    analysis_success := false }

/-- `ReviewAnalyzer.analyze_review_text`.  `review_data` is the optional
second argument (`None` or a dict); the rating is extracted from its
`rating` key only when the dict is truthy, mirroring
`if review_data and isinstance(review_data, dict)`. -/
def analyze_review_text (polarity : String → ℚ) (review_text : String)
    (review_data : Option Json) : Insights :=
  { sentiment := analyze_sentiment polarity review_text
    topics := extract_topics review_text
    problems := extract_problems review_text
    suggestions := extract_suggestions review_text
    numeric_rating :=
      match review_data with
      | some (.obj kvs) =>
          if kvs.isEmpty then 3
          else extract_rating (dictGetD kvs "rating" (.str ""))
      | _ => 3
    character_count := review_text.length
    word_count := pyWordCount review_text
    analysis_success := true }

/-- One row of the output table of `ReviewAnalyzer.analyze_batch`
(the source builds it as a dict; `raw_data` is not carried over). -/
structure AnalyzedRecord where
  review_id : String
  date : String
  original_rating : String
  text : String
  sentiment : String
  topics : List String
  problems : List String
  suggestions : List String
  numeric_rating : ℚ
  character_count : Nat
  word_count : Nat
  analysis_success : Bool
deriving DecidableEq, Repr

/-- The body of the `analyze_batch` loop for one surviving dict item at
enumeration index `i`. -/
def analyzeOne (polarity : String → ℚ) (i : Nat) (kvs : List (String × Json)) : AnalyzedRecord :=
  let review_text := safe_string_conversion
    (dictGetD kvs "text" (dictGetD kvs "review" (dictGetD kvs "content" (.str ""))))
  let insights := analyze_review_text polarity review_text (some (.obj kvs))
  { review_id := safe_string_conversion (dictGetD kvs "review_id" (dictGetD kvs "id" (.str (fmtReviewId i))))
    date := safe_string_conversion (dictGetD kvs "date" (dictGetD kvs "timestamp" (.str "")))
    original_rating := safe_string_conversion (dictGetD kvs "rating" (.str ""))
    text := review_text
    sentiment := insights.sentiment
    topics := insights.topics
    problems := insights.problems
    suggestions := insights.suggestions
    numeric_rating := insights.numeric_rating
    character_count := insights.character_count
    word_count := insights.word_count
    analysis_success := insights.analysis_success }

/-- The `for i, review in enumerate(reviews_data)` loop of
`analyze_batch`: non-dict items are skipped with a warning, the index
still advances. -/
def analyzeLoop (polarity : String → ℚ) (i : Nat) : List Json → List AnalyzedRecord
  | [] => []
  | review :: rest =>
      match review with
      | .obj kvs => analyzeOne polarity i kvs :: analyzeLoop polarity (i + 1) rest
      | _ => analyzeLoop polarity (i + 1) rest

/-- `ReviewAnalyzer.analyze_batch` (the resulting DataFrame is its row
list). -/
def analyze_batch (polarity : String → ℚ) (reviews_data : List Json) : List AnalyzedRecord :=
  analyzeLoop polarity 0 reviews_data

/-- Whether a Json value is a dict (`isinstance(review, dict)`). -/
def isObj : Json → Bool
  | .obj _ => true
  | _ => false

/-- Field lookup on a Json object (`none` on other shapes). -/
def jsonField : Json → String → Option Json
  | .obj kvs, k => dictGet kvs k
  | _, _ => none

/-- `'reviews' in data and isinstance(data['reviews'], list)`. -/
def hasReviewsList (kvs : List (String × Json)) : Bool :=
  match dictGet kvs "reviews" with
  | some (.arr _) => true
  | _ => false

/-- Whether an item is a dict carrying an explicit `review_id` field. -/
def hasReviewIdObj : Json → Bool
  | .obj kvs => (dictGet kvs "review_id").isSome
  | _ => false

/-- The string coercion of the `review_id` value supplied in a raw dict
(the id that the round-trip property expects to survive). -/
def suppliedReviewId : Json → String
  | .obj kvs =>
      match dictGet kvs "review_id" with
      | some v => pyStr v
      | none => ""
  | _ => ""

/-!  ## Theorems  -/

/-- C8: the Rating Parser (`DataIngester.extract_rating_from_text`)
applied to the string "4/5 stars" returns exactly 4: the fraction
pattern captures numerator 4 and denominator 5 and scales by 5. -/
theorem c8_rating_four_fifths :
    extract_rating_from_text (.str "4/5 stars") = .ok 4 := by
  with_unfolding_all rfl

/-- C1: the ingestion pipeline (ingest_file then analyze_batch) does NOT
carry the normalizer's rating through.  On the file `[{"rating": "5",
"text": "great"}]` the normalizer stores the raw rating under
`rating_text` (second conjunct), and the Rating Parser maps "5" to 5
(third conjunct), yet the batch analyzer reads the key `rating`, which
normalized records lack, so the emitted record has `original_rating = ""`
and `numeric_rating = 3` (first conjunct). -/
theorem c1_pipeline_rating_key_mismatch :
    ((analyze_batch (fun _ => 0) (ingest_file (.jsonFile (some (.arr
        [.obj [("rating", .str "5"), ("text", .str "great")]]))))).map
      (fun r => (r.original_rating, r.numeric_rating)) = [("", 3)]) ∧
    ((ingest_file (.jsonFile (some (.arr
        [.obj [("rating", .str "5"), ("text", .str "great")]])))).map
      (fun r => jsonField r "rating_text") = [some (.str "5")]) ∧
    extract_rating (.str "5") = 5 :=
  ⟨by decide, by rfl, by decide⟩

/-- C3 counterexample: the Rating Parser does not stay in [1,5] — the
parenthesized count of "(7 stars)" is returned as 7 — and an exception
can escape it: "1/0" hits an uncaught ZeroDivisionError. -/
theorem c3_rating_range_counterexample :
    extract_rating_from_text (.str "(7 stars)") = .ok 7 ∧
    ¬ ((7 : ℚ) ≤ 5) ∧
    extract_rating_from_text (.str "1/0") = .error "float division by zero" :=
  ⟨by rfl, by norm_num, by rfl⟩

/-- C5 counterexample: "★★ (4)" contains the parenthesized integer 4
(between 1 and 5), but `DataIngester.extract_rating_from_text` requires
"star(s)" after the digits inside the parentheses, so the star count 2
wins instead of 4. -/
theorem c5_paren_rating_counterexample :
    extract_rating_from_text (.str "★★ (4)") = .ok 2 ∧ ((2 : ℚ)) ≠ 4 :=
  ⟨by rfl, by norm_num⟩

/-- C6 counterexample: JSON ingestion of the empty mapping returns no
record at all (the `if not data` truthiness guard fires), not the single
record the claim requires. -/
theorem c6_ingest_json_empty_mapping_counterexample :
    ingest_json (some (.obj [])) = [] ∧
    ingest_json (some (.obj [])) ≠ [normalize_review (.obj []) 0] :=
  ⟨rfl, by rw [show ingest_json (some (.obj [])) = [] from rfl]; simp⟩

/-- C7 counterexample: in text ingestion of "a\n\nb" the second emitted
record carries review_id "R00002" — the raw line number 2 of its line —
whereas the claim demands the emitted-record count 1 (id "R00001"):
blank lines do consume an index. -/
theorem c7_ingest_text_index_counterexample :
    ((ingest_text "a\n\nb").map (fun r => jsonField r "review_id")
        = [some (.str "R00000"), some (.str "R00002")]) ∧
    some (Json.str "R00002") ≠ some (Json.str "R00001") :=
  ⟨by rfl, by simp⟩

/-- C2: `normalize_review` is total — every raw value of any shape and
every index yield exactly one record (a dict), whose `review_id`,
`date`, `rating_text` and `text` fields are all present and are strings
(never null), and which retains the raw value under `raw_data`.  The
`except` placeholder branch of the source is unreachable here: none of
the coercions in the body can fail on these values. -/
theorem c2_normalize_review_total (raw : Json) (index : Nat) :
    ∃ kvs, normalize_review raw index = .obj kvs ∧
      (∃ s, dictGet kvs "review_id" = some (.str s)) ∧
      (∃ s, dictGet kvs "date" = some (.str s)) ∧
      (∃ s, dictGet kvs "rating_text" = some (.str s)) ∧
      (∃ s, dictGet kvs "text" = some (.str s)) ∧
      dictGet kvs "raw_data" = some raw := by
  cases raw <;>
    exact ⟨_, rfl, ⟨_, rfl⟩, ⟨_, rfl⟩, ⟨_, rfl⟩, ⟨_, rfl⟩, rfl⟩

lemma analyzeLoop_eq_filterMap (polarity : String → ℚ) (l : List Json) :
    ∀ i : Nat, analyzeLoop polarity i l = (List.enumFrom i l).filterMap
      (fun pr => match pr.2 with
        | .obj kvs => some (analyzeOne polarity pr.1 kvs)
        | _ => none) := by
  induction l with
  | nil => intro i; rfl
  | cons review rest ih =>
      intro i
      cases review <;>
        simp [analyzeLoop, List.enumFrom, List.filterMap_cons, ih (i + 1)]

lemma isObj_null : isObj Json.null = false := rfl

lemma isObj_bool (b : Bool) : isObj (Json.bool b) = false := rfl

lemma isObj_num (n : Int) : isObj (Json.num n) = false := rfl

lemma isObj_str (s : String) : isObj (Json.str s) = false := rfl

lemma isObj_arr (xs : List Json) : isObj (Json.arr xs) = false := rfl

lemma isObj_obj (kvs : List (String × Json)) : isObj (Json.obj kvs) = true := rfl

lemma analyzeLoop_length (polarity : String → ℚ) (l : List Json) :
    ∀ i : Nat, (analyzeLoop polarity i l).length
      + (l.filter (fun r => !(isObj r))).length = l.length := by
  induction l with
  | nil => intro i; rfl
  | cons review rest ih =>
      intro i
      have h := ih (i + 1)
      cases review <;>
        simp [analyzeLoop, List.filter_cons, isObj_null, isObj_bool, isObj_num,
          isObj_str, isObj_arr, isObj_obj] <;> omega

/-- C4: the batch analyzer emits at most one record per input item; its
output length is the input length minus the number of non-dict items;
and the output is exactly the order-preserving filter-map of the
enumerated input that keeps the dict items — so surviving items appear
in input order. -/
theorem c4_analyze_batch_length_order (polarity : String → ℚ) (l : List Json) :
    (analyze_batch polarity l).length ≤ l.length ∧
    (analyze_batch polarity l).length
      = l.length - (l.filter (fun r => !(isObj r))).length ∧
    analyze_batch polarity l = l.enum.filterMap
      (fun pr => match pr.2 with
        | .obj kvs => some (analyzeOne polarity pr.1 kvs)
        | _ => none) := by
  have hl := analyzeLoop_length polarity l 0
  refine ⟨by simp only [analyze_batch]; omega, by simp only [analyze_batch]; omega, ?_⟩
  simpa [analyze_batch, List.enum] using analyzeLoop_eq_filterMap polarity l 0

lemma ingestTextLoop_eq_filterMap (lines : List (List Char)) :
    ∀ i : Nat, ingestTextLoop i lines = (List.enumFrom i lines).filterMap
      (fun p => if pyStrip p.2 = [] then none
                else some (normalize_review (.str (String.mk (pyStrip p.2))) p.1)) := by
  induction lines with
  | nil => intro i; rfl
  | cons line rest ih =>
      intro i
      by_cases h : pyStrip line = [] <;>
        simp [ingestTextLoop, List.enumFrom, List.filterMap_cons, h, ih (i + 1)]

/-- C7 amended: text ingestion is the filter-map of the enumerated line
list — each emitted record is normalized with the raw line number of its
line (blank lines are skipped but still consume an index). -/
theorem c7_ingest_text_raw_line_index_amended (content : String) :
    ingest_text content = ((splitOnDelims ['\n'] content.data).enum).filterMap
      (fun p => if pyStrip p.2 = [] then none
                else some (normalize_review (.str (String.mk (pyStrip p.2))) p.1)) := by
  simpa [ingest_text, List.enum] using
    ingestTextLoop_eq_filterMap (splitOnDelims ['\n'] content.data) 0

lemma problemsLoop_sublist (sents : List (List Char)) :
    ∀ acc : List String,
      List.Sublist (problemsLoop acc sents) (acc ++ sents.filterMap capturedProblem) := by
  induction sents with
  | nil => intro acc; simp [problemsLoop]
  | cons sentence rest ih =>
      intro acc
      cases hc : capturedProblem sentence with
      | none => simpa [problemsLoop, hc] using ih acc
      | some p =>
          by_cases hp : p ∈ acc
          · refine List.Sublist.trans (by simpa [problemsLoop, hc, hp] using ih acc) ?_
            simp [List.filterMap_cons, hc]
          · have := ih (acc ++ [p])
            simpa [problemsLoop, hc, hp, List.filterMap_cons, List.append_assoc] using this

lemma problemsLoop_nodup (sents : List (List Char)) :
    ∀ acc : List String, acc.Nodup → (problemsLoop acc sents).Nodup := by
  induction sents with
  | nil => intro acc h; simpa [problemsLoop] using h
  | cons sentence rest ih =>
      intro acc h
      cases hc : capturedProblem sentence with
      | none => simpa [problemsLoop, hc] using ih acc h
      | some p =>
          by_cases hp : p ∈ acc
          · simpa [problemsLoop, hc, hp] using ih acc h
          · have hnd : (acc ++ [p]).Nodup := by
              simp [List.nodup_append, h, hp]
            simpa [problemsLoop, hc, hp] using ih (acc ++ [p]) hnd

/-- C9: the problem extractor returns at most 5 entries, without
duplicates, and its output is an order-preserving selection (sublist) of
the per-sentence captures — one capture at most per sentence, listed in
the order the sentences occur. -/
theorem c9_extract_problems_spec (t : String) :
    (extract_problems t).length ≤ 5 ∧
    (extract_problems t).Nodup ∧
    List.Sublist (extract_problems t)
      ((splitOnDelims ['.', '!', '?']
        (lowerChars (safe_string_conversion (.str t)).data)).filterMap capturedProblem) := by
  unfold extract_problems
  by_cases h : pyStrip (lowerChars (safe_string_conversion (.str t)).data) = []
  · simp [h]
  · simp only [h, if_neg, ite_false]
    refine ⟨List.length_take_le 5 _, ?_, ?_⟩
    · exact (List.take_sublist 5 _).nodup (problemsLoop_nodup _ [] List.nodup_nil)
    · exact (List.take_sublist 5 _).trans
        (by simpa using problemsLoop_sublist (splitOnDelims ['.', '!', '?']
          (lowerChars (safe_string_conversion (.str t)).data)) [])

lemma takeWhile_digits_eq_nil (cs : List Char) (h : ∀ c ∈ cs, c.isDigit = false) :
    cs.takeWhile Char.isDigit = [] := by
  cases cs with
  | nil => rfl
  | cons c rest => simp [List.takeWhile_cons, h c (by simp)]

lemma parenStarsNum_eq_none (cs : List Char) (h : ∀ c ∈ cs, c.isDigit = false) :
    parenStarsNum cs = none := by
  induction cs with
  | nil => rfl
  | cons c rest ih =>
      have hrest : ∀ x ∈ rest, x.isDigit = false :=
        fun x hx => h x (List.mem_cons_of_mem _ hx)
      by_cases hc : c = '('
      · subst hc
        have hm : matchParenStars rest = none := by
          unfold matchParenStars
          rw [takeWhile_digits_eq_nil rest hrest]
          simp
        simp [parenStarsNum, hm, ih hrest]
      · simp [parenStarsNum, hc, ih hrest]

lemma searchNum_eq_none (cs : List Char) (h : ∀ c ∈ cs, c.isDigit = false) :
    searchNum cs = none := by
  induction cs with
  | nil => rfl
  | cons c rest ih =>
      simp [searchNum, h c (List.mem_cons_self c rest),
        ih (fun x hx => h x (List.mem_cons_of_mem _ hx))]

lemma countChar_eq_zero (x : Char) (cs : List Char) (h : ∀ c ∈ cs, c ≠ x) :
    countChar x cs = 0 := by
  simp only [countChar, List.countP_eq_zero]
  intro a ha
  simpa using h a ha

/-- C3 amended: the Rating Parser returns the default 3 on null input
and on every string whose lower-cased text has no digit, no ★ and no *
(no recognizable rating signal); the [1,5] range and the no-exception
parts of the original claim fail (see the counterexample). -/
theorem c3_rating_default_amended (s : String)
    (h : (lowerChars s.data).all
        (fun c => !(c.isDigit) && c != '★' && c != '*') = true) :
    extract_rating_from_text (.str s) = .ok 3 ∧
    extract_rating_from_text Json.null = .ok 3 := by
  have hprops : ∀ c ∈ lowerChars s.data, c.isDigit = false ∧ c ≠ '★' ∧ c ≠ '*' := by
    intro c hc
    have hx := List.all_eq_true.mp h c hc
    simp only [Bool.and_eq_true, bne_iff_ne, Bool.not_eq_true'] at hx
    exact ⟨hx.1.1, hx.1.2, hx.2⟩
  refine ⟨?_, rfl⟩
  by_cases he : s = ""
  · subst he; rfl
  · have hfalsy : pyFalsy (.str s) = false := by simp [pyFalsy, he]
    simp only [extract_rating_from_text, hfalsy, Bool.false_eq_true, if_false, pyStr]
    rw [parenStarsNum_eq_none _ (fun c hc => (hprops c hc).1),
      countChar_eq_zero '★' _ (fun c hc => (hprops c hc).2.1),
      countChar_eq_zero '*' _ (fun c hc => (hprops c hc).2.2),
      searchNum_eq_none _ (fun c hc => (hprops c hc).1)]
    rfl

/-- C3 amended, witness: the signal-free string "no rating here!"
satisfies the hypothesis and is mapped to the default 3, as is null. -/
theorem c3_rating_default_amended_witness :
    ((lowerChars "no rating here!".data).all
        (fun c => !(c.isDigit) && c != '★' && c != '*') = true) ∧
    (extract_rating_from_text (.str "no rating here!") = .ok 3 ∧
      extract_rating_from_text Json.null = .ok 3) :=
  ⟨by decide, c3_rating_default_amended "no rating here!" (by decide)⟩

/-- C5 amended: the parenthesized-integer rule holds for the first
parenthesized digit group: `ReviewAnalyzer.extract_rating` returns N
whenever the first `(`-followed digit run reads N, regardless of star
glyphs or other numbers elsewhere; `DataIngester.extract_rating_from_text`
gives the same guarantee only when the parenthesized digits are followed
by optional whitespace and "star"/"stars" before the closing parenthesis
(its regex is `\((\d+)\s*stars?\)`). -/
theorem c5_paren_rating_amended (s₁ s₂ : String) (n₁ n₂ : Nat)
    (h₁ : firstParenNum s₁.data = some n₁)
    (h₂ : parenStarsNum (lowerChars s₂.data) = some n₂) :
    extract_rating (.str s₁) = (n₁ : ℚ) ∧
    extract_rating_from_text (.str s₂) = .ok ((n₂ : ℚ)) := by
  constructor
  · simp only [extract_rating, safe_string_conversion, pyStr]
    rw [h₁]
  · have hne : s₂ ≠ "" := by
      intro he
      subst he
      rw [show ("" : String).data = [] from rfl] at h₂
      simp [lowerChars, parenStarsNum] at h₂
    have hfalsy : pyFalsy (.str s₂) = false := by simp [pyFalsy, hne]
    simp only [extract_rating_from_text, hfalsy, Bool.false_eq_true, if_false, pyStr]
    rw [h₂]

/-- C5 amended, witness: "★★ (4)" has first parenthesized digits 4 and
the analyzer parser returns 4 despite the two stars; "★★★★★ (2 stars)"
matches the ingester pattern and returns 2 despite the five stars. -/
theorem c5_paren_rating_amended_witness :
    firstParenNum ("★★ (4)" : String).data = some 4 ∧
    parenStarsNum (lowerChars ("★★★★★ (2 stars)" : String).data) = some 2 ∧
    (extract_rating (.str "★★ (4)") = ((4 : Nat) : ℚ) ∧
      extract_rating_from_text (.str "★★★★★ (2 stars)") = .ok (((2 : Nat) : ℚ))) :=
  ⟨by decide, by decide,
    c5_paren_rating_amended "★★ (4)" "★★★★★ (2 stars)" 4 2 (by decide) (by decide)⟩

/-- C6 amended: a non-empty top-level mapping without a `reviews`-list
key ingests to exactly the one record normalized at index 0 (the empty
mapping instead falls to the falsy guard, see the counterexample). -/
theorem c6_ingest_json_single_mapping_amended (kvs : List (String × Json))
    (h1 : kvs ≠ []) (h2 : hasReviewsList kvs = false) :
    ingest_json (some (.obj kvs)) = [normalize_review (.obj kvs) 0] := by
  have hfalsy : pyFalsy (.obj kvs) = false := by
    simp [pyFalsy, List.isEmpty_iff, h1]
  simp only [ingest_json, hfalsy, Bool.false_eq_true, if_false]
  cases hr : dictGet kvs "reviews" with
  | none => simp [hr]
  | some v => cases v <;> simp_all [hasReviewsList, hr]

/-- C6 amended, witness: the one-field mapping `{"text": "nice"}` is
non-empty, has no reviews list, and ingests to its single normalized
record at index 0. -/
theorem c6_ingest_json_single_mapping_amended_witness :
    (([("text", Json.str "nice")] : List (String × Json)) ≠ []) ∧
    hasReviewsList [("text", Json.str "nice")] = false ∧
    ingest_json (some (.obj [("text", Json.str "nice")]))
      = [normalize_review (.obj [("text", Json.str "nice")]) 0] :=
  ⟨by simp, by rfl,
    c6_ingest_json_single_mapping_amended [("text", Json.str "nice")] (by simp) (by rfl)⟩

lemma normalize_review_obj (kvs : List (String × Json)) (i : Nat) :
    normalize_review (Json.obj kvs) i = Json.obj (normFields kvs i) := rfl

lemma analyzeLoop_cons_obj (polarity : String → ℚ) (j : Nat)
    (fields : List (String × Json)) (tail : List Json) :
    analyzeLoop polarity j (Json.obj fields :: tail)
      = analyzeOne polarity j fields :: analyzeLoop polarity (j + 1) tail := rfl

lemma analyzeOne_review_id_normFields (polarity : String → ℚ) (i j : Nat)
    (kvs : List (String × Json)) (v : Json) (hv : dictGet kvs "review_id" = some v) :
    (analyzeOne polarity j (normFields kvs i)).review_id = pyStr v := by
  show safe_string_conversion (dictGetD (normFields kvs i) "review_id"
    (dictGetD (normFields kvs i) "id" (Json.str (fmtReviewId j)))) = pyStr v
  rw [show dictGetD (normFields kvs i) "review_id"
        (dictGetD (normFields kvs i) "id" (Json.str (fmtReviewId j)))
      = Json.str (pyStr (dictGetD kvs "review_id" (dictGetD kvs "id"
          (Json.str (fmtReviewId i))))) from rfl]
  simp [safe_string_conversion, pyStr, dictGetD, hv]

lemma analyzeLoop_normalized_ids (polarity : String → ℚ) (xs : List Json) :
    ∀ i j : Nat, (∀ x ∈ xs, hasReviewIdObj x = true) →
      ((analyzeLoop polarity j ((List.enumFrom i xs).map
          (fun p => normalize_review p.2 p.1))).map (fun r => r.review_id)
        = xs.map suppliedReviewId) ∧
      (analyzeLoop polarity j ((List.enumFrom i xs).map
          (fun p => normalize_review p.2 p.1))).length = xs.length := by
  induction xs with
  | nil => intro i j _; exact ⟨rfl, rfl⟩
  | cons x rest ih =>
      intro i j h
      have hx := h x (List.mem_cons_self x rest)
      rcases x with _ | b | n | s | ys | kvs
      · simp [hasReviewIdObj] at hx
      · simp [hasReviewIdObj] at hx
      · simp [hasReviewIdObj] at hx
      · simp [hasReviewIdObj] at hx
      · simp [hasReviewIdObj] at hx
      · obtain ⟨v, hv⟩ := Option.isSome_iff_exists.mp (by simpa [hasReviewIdObj] using hx)
        obtain ⟨htail, htlen⟩ := ih (i + 1) (j + 1) (fun y hy => h y (List.mem_cons_of_mem _ hy))
        have hstep : (List.enumFrom i (Json.obj kvs :: rest)).map
            (fun p => normalize_review p.2 p.1)
            = normalize_review (Json.obj kvs) i ::
              (List.enumFrom (i + 1) rest).map (fun p => normalize_review p.2 p.1) := rfl
        rw [hstep, normalize_review_obj, analyzeLoop_cons_obj, List.map_cons,
          List.map_cons, List.length_cons, List.length_cons]
        refine ⟨?_, by rw [htlen]⟩
        rw [htail, analyzeOne_review_id_normFields polarity i j kvs v hv,
          show suppliedReviewId (Json.obj kvs) = pyStr v by simp [suppliedReviewId, hv]]

lemma normalize_review_isObj (raw : Json) (i : Nat) :
    isObj (normalize_review raw i) = true := by
  cases raw <;> rfl

/-- C10: ingesting a JSON array whose items are all dicts carrying an
explicit `review_id` field and then batch-analyzing yields exactly one
AnalyzedRecord per item, in input order, whose `review_id` equals the
string coercion of the supplied value. -/
theorem c10_json_roundtrip_review_ids (polarity : String → ℚ) (xs : List Json)
    (h : ∀ x ∈ xs, hasReviewIdObj x = true) :
    ((analyze_batch polarity (ingest_json (some (.arr xs)))).map (fun r => r.review_id)
        = xs.map suppliedReviewId) ∧
    (analyze_batch polarity (ingest_json (some (.arr xs)))).length = xs.length := by
  by_cases hnil : xs = []
  · subst hnil; exact ⟨rfl, rfl⟩
  · have hfalsy : pyFalsy (.arr xs) = false := by
      simp [pyFalsy, List.isEmpty_iff, hnil]
    have hing : ingest_json (some (.arr xs))
        = (xs.enum).map (fun p => normalize_review p.2 p.1) := by
      simp [ingest_json, hfalsy]
    rw [hing]
    have := analyzeLoop_normalized_ids polarity xs 0 0 h
    constructor
    · simpa [analyze_batch, List.enum] using this.1
    · simpa [analyze_batch, List.enum] using this.2

/-- C10, witness: a two-item array with supplied review_ids "A7" and
"B9" round-trips to exactly those ids in order. -/
theorem c10_json_roundtrip_review_ids_witness :
    (∀ x ∈ ([.obj [("review_id", Json.str "A7"), ("text", Json.str "good app")],
             .obj [("review_id", Json.str "B9"), ("text", Json.str "slow delivery")]] : List Json),
        hasReviewIdObj x = true) ∧
    ((analyze_batch (fun _ => 0) (ingest_json (some (.arr
        [.obj [("review_id", Json.str "A7"), ("text", Json.str "good app")],
         .obj [("review_id", Json.str "B9"), ("text", Json.str "slow delivery")]])))).map
      (fun r => r.review_id)
        = [.obj [("review_id", Json.str "A7"), ("text", Json.str "good app")],
           .obj [("review_id", Json.str "B9"), ("text", Json.str "slow delivery")]].map suppliedReviewId) ∧
    (analyze_batch (fun _ => 0) (ingest_json (some (.arr
        [.obj [("review_id", Json.str "A7"), ("text", Json.str "good app")],
         .obj [("review_id", Json.str "B9"), ("text", Json.str "slow delivery")]])))).length = 2 :=
  ⟨by decide,
    (c10_json_roundtrip_review_ids (fun _ => 0) _ (by decide)).1,
    (c10_json_roundtrip_review_ids (fun _ => 0) _ (by decide)).2⟩
